import Mathlib

/-!
Shallow embedding of `src/main.cpp` (a Kademlia routing-table sketch).

Machine integers: `uint256_t` values are embedded as `Nat`; every operation the
source performs on them (XOR of two values below `2 ^ 256`, comparisons,
`push_back` of values) stays below `2 ^ 256`, so no modular reduction is ever
observable and none is inserted.  Fallible code (`throw std::out_of_range`)
is embedded as `Except String`.
-/

/-- `class Bucket`: a contact list (`std::list<uint256_t> contacts_`), the
capacity `k_` (a `uint8_t`), and the two covered-distance bounds
(`covered_distance_from_`, `covered_distance_to_`). -/
structure Bucket where
  contacts : List Nat
  k : Nat
  coveredDistanceFrom : Nat
  coveredDistanceTo : Nat
deriving DecidableEq, Repr

/-- `Bucket::Bucket(from, to)`: member initialisers set `k_ = 20` and the two
bounds; `contacts_` is default-constructed empty. -/
def Bucket.create (covered_distance_from covered_distance_to : Nat) : Bucket :=
  { contacts := []
    k := 20
    coveredDistanceFrom := covered_distance_from
    coveredDistanceTo := covered_distance_to }

/-- `Bucket::Put(node_id)`: if `contacts_.size() < k_` then
`contacts_.push_back(node_id)` (append at the back), else
`throw std::out_of_range("Bucket size must be less or equal " + std::to_string(k_))`.
There is no check whether `node_id` is already present. -/
def Bucket.Put (b : Bucket) (node_id : Nat) : Except String Bucket :=
  if b.contacts.length < b.k then
    Except.ok { b with contacts := b.contacts ++ [node_id] }
  else
    Except.error ("Bucket size must be less or equal " ++ toString b.k)

/-- The state a caller observes after invoking `Put`: the updated bucket on the
normal path, and the unchanged bucket when `Put` throws (the exception
propagates before any mutation of `contacts_`). -/
def Bucket.applyPut (b : Bucket) (node_id : Nat) : Bucket :=
  match b.Put node_id with
  | Except.ok b2 => b2
  | Except.error _ => b

/-- A sequence of `Put` calls on one bucket, each observed through
`Bucket.applyPut`. -/
def Bucket.PutSeq (b : Bucket) (ids : List Nat) : Bucket :=
  ids.foldl Bucket.applyPut b

/-- `class Node` (fields relevant to the routing logic): the 256-bit identifier
`id_` and the owned `BucketList` (embedded as its `std::list<Bucket>`
contents).  The socket address and the four timestamps play no part in any
routing operation and are not modelled. -/
structure Node where
  id : Nat
  bucket_list : List Bucket
deriving DecidableEq, Repr

/-- The loop body of `BucketList::BucketList()` at index `index`: it computes
`pow(cpp_dec_float_100(2), index)` and `pow(cpp_dec_float_100(2), index + 1)`
and casts them to `uint256_t`.  Boost.Multiprecision's `eval_pow` detects an
exactly-integral exponent and dispatches to exact binary exponentiation, and
`cpp_dec_float_100` (100 decimal digits) represents every power of two up to
`2 ^ 160 < 10 ^ 49` exactly, so the truncating cast yields exactly `2 ^ index`
and `2 ^ (index + 1)`. -/
def BucketList.bucketAt (index : Nat) : Bucket :=
  Bucket.create (2 ^ index) (2 ^ (index + 1))

/-- `BucketList::BucketList()`: the constructor eagerly pushes one bucket per
`index` in `0 .. SHA1_HASH_SIZE - 1` (`SHA1_HASH_SIZE = 160`), covering
`[2 ^ index, 2 ^ (index + 1))`. -/
def BucketList.init : List Bucket :=
  (List.range 160).map BucketList.bucketAt

/-- `BucketList::Push(other_node, distance)`: builds `cpp_dec_float_100 d`
from `distance`, adds 4, and prints `static_cast<uint32_t>(log2(d))`.  It
returns the bucket list untouched together with the printed level.  The
truncating cast of the 100-decimal-digit `log2` is the floor of the exact
logarithm, i.e. `Nat.log 2 (distance + 4)`, whenever `distance + 4` is not an
exact power of two (at an exact power the last-digit rounding of the
transcendental evaluation is not specified; no claim is settled there). -/
def BucketList.Push (bucket_list : List Bucket) (other_node : Node)
    (distance : Nat) : List Bucket × Nat :=
  (bucket_list, Nat.log 2 (distance + 4))

/-- Modelled from the spec: `sha1.hpp` is included but is not under `src/`.
The spec fixes only the interface of identifier generation: a fixed-width
160-bit value, however derived ("Identifier: opaque 160-bit unsigned value";
"fixed-width (160-bit) unsigned integers").  `SHA1::update` followed by
`SHA1::final()` is therefore modelled as an unspecified computable hash of the
input reduced to SHA-1's 160-bit digest width. -/
def sha1Final (raw_data : String) : Nat :=
  (raw_data.foldl (fun h c => h * 65599 + c.toNat) 5381) % 2 ^ 160

/-- `Node::GenerateID(raw_data)`: `checksum.final()` renders the 160-bit digest
as hexadecimal text, and `ss >> temp_id` (the stream's basefield is hex) parses
those base-16 digits back into `uint256_t`; value-wise the round trip is
`Nat.ofDigits 16` of the digest's base-16 digits. -/
def Node.GenerateID (raw_data : String) : Nat :=
  Nat.ofDigits 16 (Nat.digits 16 (sha1Final raw_data))

/-- `Node::Node(raw_data)`: member initialisers set
`id_ = GenerateID(raw_data)` and `bucket_list_ = new BucketList` (the eagerly
filled list); the timestamp fields are not modelled. -/
def Node.create (raw_data : String) : Node :=
  { id := Node.GenerateID raw_data
    bucket_list := BucketList.init }

/-- `Node::CalculateDistance(other_node)`: `id_ ^ other_node.GetID()`.  XOR of
two `uint256_t` values never exceeds the wider operand's bit width, so the
fixed-width XOR coincides with `Nat` XOR and no reduction is inserted. -/
def Node.CalculateDistance (n : Node) (other_node : Node) : Nat :=
  n.id ^^^ other_node.id

/-- `Node::GetID()`. -/
def Node.GetID (n : Node) : Nat :=
  n.id

/-- `Node::AddToList(other_node)`: computes
`distance = CalculateDistance(other_node)` and calls
`bucket_list_->Push(other_node, distance)`. -/
def Node.AddToList (n : Node) (other_node : Node) : Node :=
  { n with
    bucket_list := (BucketList.Push n.bucket_list other_node
      (n.CalculateDistance other_node)).1 }

/-- A distance `d` lies in the covered range of bucket `b`: the ranges are
half-open, `covered_distance_from_ <= d < covered_distance_to_` (the `DEBUG`
dump in the constructor prints them as `[from, to)`). -/
def InCoveredRange (b : Bucket) (d : Nat) : Prop :=
  b.coveredDistanceFrom ≤ d ∧ d < b.coveredDistanceTo

instance (b : Bucket) (d : Nat) : Decidable (InCoveredRange b d) :=
  inferInstanceAs (Decidable (_ ∧ _))

/-! Helper lemmas about the constructed bucket list. -/

lemma BucketList.init_length : BucketList.init.length = 160 := by
  simp [BucketList.init]

lemma BucketList.mem_init {b : Bucket} :
    b ∈ BucketList.init ↔ ∃ i, i < 160 ∧ b = BucketList.bucketAt i := by
  simp [BucketList.init, List.mem_map, List.mem_range, eq_comm]

lemma BucketList.init_getElem (i : Nat) (hi : i < BucketList.init.length) :
    BucketList.init[i] = BucketList.bucketAt i := by
  simp [BucketList.init]

lemma BucketList.inCoveredRange_bucketAt {i d : Nat} :
    InCoveredRange (BucketList.bucketAt i) d ↔ 2 ^ i ≤ d ∧ d < 2 ^ (i + 1) :=
  Iff.rfl

/-! Claim theorems. -/

/-- C7: `CalculateDistance` computes `id_ XOR other.id_`; it is symmetric and
the self-distance is zero. -/
theorem C7_distance_xor_metric (n1 n2 : Node) :
    Node.CalculateDistance n1 n2 = n1.id ^^^ n2.id ∧
    Node.CalculateDistance n1 n2 = Node.CalculateDistance n2 n1 ∧
    Node.CalculateDistance n1 n1 = 0 := by
  refine ⟨rfl, ?_, ?_⟩
  · simp [Node.CalculateDistance, Nat.xor_comm]
  · simp [Node.CalculateDistance]

/-- C9: the identifier produced at node construction (`GenerateID`) is strictly
below `2 ^ 160`, i.e. it fits in 160 of the 256 bits. -/
theorem C9_generated_id_fits_160_bits (raw_data : String) :
    Node.GenerateID raw_data < 2 ^ 160 ∧ (Node.create raw_data).id < 2 ^ 160 := by
  have h : Node.GenerateID raw_data < 2 ^ 160 := by
    unfold Node.GenerateID
    rw [Nat.ofDigits_digits]
    exact Nat.mod_lt _ (by positivity)
  exact ⟨h, h⟩

/-- C10: `AddToList`/`Push` never touch the bucket list: the buckets, and
hence every bucket's contact list, are exactly as before the call. -/
theorem C10_addToList_leaves_buckets_unchanged (n other_node : Node) :
    (Node.AddToList n other_node).bucket_list = n.bucket_list :=
  rfl

/-- C2 (failing-input evaluation): at distance 1 the claim demands insertion
into the bucket of index 0 (`2 ^ 0 ≤ 1 < 2 ^ 1`); instead `Push` computes the
level `log2(1 + 4) = 2` — the wrong index — and inserts nothing into any
bucket. -/
theorem C2_push_inserts_nothing_and_miscomputes_level :
    (BucketList.Push BucketList.init (Node.mk 1 BucketList.init) 1).1
        = BucketList.init ∧
    (BucketList.Push BucketList.init (Node.mk 1 BucketList.init) 1).2 = 2 ∧
    ¬ (2 ^ 2 ≤ 1 ∧ 1 < 2 ^ (2 + 1)) := by
  refine ⟨rfl, ?_, by decide⟩
  show Nat.log 2 (1 + 4) = 2
  exact Nat.log_eq_of_pow_le_of_lt_pow (by norm_num) (by norm_num)

/-- C6 (counterexample): at construction the bucket list holds 160 buckets,
not one. -/
theorem C6_counterexample :
    BucketList.init.length = 160 ∧ BucketList.init.length ≠ 1 := by
  refine ⟨BucketList.init_length, ?_⟩
  rw [BucketList.init_length]
  decide

/-- C6 (amended): the constructor eagerly creates exactly 160 buckets, the
`i`-th covering `[2 ^ i, 2 ^ (i + 1))` with an empty contact list; no splitting
operation exists. -/
theorem C6_construction_eager_160_buckets (i : Nat)
    (hi : i < BucketList.init.length) :
    BucketList.init.length = 160 ∧
    (BucketList.init[i]).coveredDistanceFrom = 2 ^ i ∧
    (BucketList.init[i]).coveredDistanceTo = 2 ^ (i + 1) ∧
    (BucketList.init[i]).contacts = [] := by
  rw [BucketList.init_getElem i hi]
  exact ⟨BucketList.init_length, rfl, rfl, rfl⟩

/-- C6 (witness): the amended statement at index 0. -/
theorem C6_construction_eager_160_buckets_witness :
    BucketList.init.length = 160 ∧
    (BucketList.init.get ⟨0, by rw [BucketList.init_length]; omega⟩).coveredDistanceFrom
        = 2 ^ 0 ∧
    (BucketList.init.get ⟨0, by rw [BucketList.init_length]; omega⟩).coveredDistanceTo
        = 2 ^ (0 + 1) ∧
    (BucketList.init.get ⟨0, by rw [BucketList.init_length]; omega⟩).contacts = [] :=
  C6_construction_eager_160_buckets 0 (by rw [BucketList.init_length]; omega)

/-! Capacity invariant of `Bucket::Put`. -/

lemma Bucket.putSeq_cons (b : Bucket) (x : Nat) (xs : List Nat) :
    Bucket.PutSeq b (x :: xs) = Bucket.PutSeq (b.applyPut x) xs :=
  rfl

lemma Bucket.applyPut_invariant (b : Bucket) (x : Nat)
    (h : b.contacts.length ≤ b.k) :
    (b.applyPut x).contacts.length ≤ (b.applyPut x).k ∧ (b.applyPut x).k = b.k := by
  by_cases hlt : b.contacts.length < b.k <;>
    simp [Bucket.applyPut, Bucket.Put, hlt] <;> omega

lemma Bucket.putSeq_invariant (ids : List Nat) (b : Bucket)
    (h : b.contacts.length ≤ b.k) :
    (Bucket.PutSeq b ids).contacts.length ≤ (Bucket.PutSeq b ids).k ∧
    (Bucket.PutSeq b ids).k = b.k := by
  induction ids generalizing b with
  | nil => exact ⟨h, rfl⟩
  | cons x xs ih =>
    have h1 := Bucket.applyPut_invariant b x h
    have h2 := ih (b.applyPut x) h1.1
    rw [Bucket.putSeq_cons]
    exact ⟨h2.1, h2.2.trans h1.2⟩

/-- C3: for a bucket with the constructed capacity `k_ = 20` and at most 20
contacts, no sequence of `Put` calls ever brings the live-contact count above
20, and a `Put` on a bucket already holding 20 contacts leaves the count
unchanged (the call throws before mutating). -/
theorem C3_capacity_never_exceeded (b : Bucket) (ids : List Nat) (node_id : Nat)
    (hk : b.k = 20) (hle : b.contacts.length ≤ 20) :
    (Bucket.PutSeq b ids).contacts.length ≤ 20 ∧
    (b.contacts.length = 20 →
      (b.applyPut node_id).contacts.length = b.contacts.length) := by
  have h := Bucket.putSeq_invariant ids b (by omega)
  constructor
  · have := h.1
    rw [h.2, hk] at this
    exact this
  · intro hfull
    have hnlt : ¬ b.contacts.length < b.k := by omega
    simp [Bucket.applyPut, Bucket.Put, hnlt]

/-- C3 (witness): the bound at a concrete bucket filled to capacity. -/
theorem C3_capacity_never_exceeded_witness :
    (Bucket.PutSeq (Bucket.PutSeq (Bucket.create 4 8) (List.range 20))
        [99]).contacts.length ≤ 20 ∧
    ((Bucket.PutSeq (Bucket.create 4 8) (List.range 20)).contacts.length = 20 →
      ((Bucket.PutSeq (Bucket.create 4 8) (List.range 20)).applyPut 99).contacts.length
        = (Bucket.PutSeq (Bucket.create 4 8) (List.range 20)).contacts.length) :=
  C3_capacity_never_exceeded _ [99] 99 (by decide) (by decide)

/-- C4 (counterexample): `Put` on a bucket already holding its 20 contacts
surfaces an `out_of_range` error to the caller instead of returning
normally. -/
theorem C4_counterexample :
    Bucket.Put (Bucket.PutSeq (Bucket.create 0 4) (List.range 20)) 99
      = Except.error ("Bucket size must be less or equal " ++ toString 20) := by
  rfl

/-- C4 (amended): inserting into a full bucket surfaces an error to the
caller — `Put` on a bucket holding at least `k_` contacts throws
`out_of_range` (there is no replacement cache and no "bucket full" signal). -/
theorem C4_full_bucket_put_errors (b : Bucket) (node_id : Nat)
    (hfull : b.k ≤ b.contacts.length) :
    Bucket.Put b node_id
      = Except.error ("Bucket size must be less or equal " ++ toString b.k) := by
  unfold Bucket.Put
  rw [if_neg (by omega)]

/-- C4 (witness): the amended statement at a concrete full bucket. -/
theorem C4_full_bucket_put_errors_witness :
    Bucket.Put (Bucket.PutSeq (Bucket.create 4 32) (List.range 20)) 7
      = Except.error ("Bucket size must be less or equal "
          ++ toString (Bucket.PutSeq (Bucket.create 4 32) (List.range 20)).k) :=
  C4_full_bucket_put_errors _ 7 (by decide)

/-- C5 (counterexample): re-recording identifier 7 in a bucket that already
holds it (and has room) appends a second copy: the contact list becomes
`[7, 7]` and the live count grows from 1 to 2 instead of staying put. -/
theorem C5_counterexample :
    (((Bucket.create 4 8).applyPut 7).applyPut 7).contacts = [7, 7] ∧
    (((Bucket.create 4 8).applyPut 7).applyPut 7).contacts.length
      ≠ ((Bucket.create 4 8).applyPut 7).contacts.length := by
  decide

/-- C5 (amended): `Put` performs no presence check — recording an identifier
already present in a bucket with fewer than `k_` contacts appends a duplicate
at the back (most-recently-seen end) and increases the live-contact count by
one; repeated `Put` of the same contact is not idempotent. -/
theorem C5_reput_appends_duplicate (b : Bucket) (node_id : Nat)
    (hmem : node_id ∈ b.contacts) (hlt : b.contacts.length < b.k) :
    b.Put node_id = Except.ok { b with contacts := b.contacts ++ [node_id] } ∧
    (b.applyPut node_id).contacts.length = b.contacts.length + 1 := by
  constructor
  · unfold Bucket.Put
    rw [if_pos hlt]
  · simp [Bucket.applyPut, Bucket.Put, hlt]

/-- C5 (witness): the amended statement at a concrete bucket holding 7. -/
theorem C5_reput_appends_duplicate_witness :
    Bucket.Put ((Bucket.create 4 8).applyPut 7) 7
      = Except.ok { (Bucket.create 4 8).applyPut 7 with
          contacts := ((Bucket.create 4 8).applyPut 7).contacts ++ [7] } ∧
    (((Bucket.create 4 8).applyPut 7).applyPut 7).contacts.length
      = ((Bucket.create 4 8).applyPut 7).contacts.length + 1 :=
  C5_reput_appends_duplicate _ 7 (by decide) (by decide)

/-- C1 (counterexample): distance 0 lies in the claimed full space
`[0, 2 ^ 160)` yet no constructed bucket covers it — every bucket's range
starts at `2 ^ i ≥ 1`, so the union of the ranges misses 0. -/
theorem C1_counterexample :
    0 < 2 ^ 160 ∧ ¬ ∃ b ∈ BucketList.init, InCoveredRange b 0 := by
  constructor
  · positivity
  · rintro ⟨b, hb, hin⟩
    obtain ⟨i, _, rfl⟩ := BucketList.mem_init.mp hb
    have h1 : 2 ^ i ≤ 0 := hin.1
    have h2 : 0 < 2 ^ i := by positivity
    omega

/-- C1 (amended): the buckets' covered ranges form a contiguous,
non-overlapping partition of `[2 ^ 0, 2 ^ 160)` — not of the full space
`[0, 2 ^ 160)`: a distance is covered by some bucket iff it lies in
`[1, 2 ^ 160)`, the ranges of distinct buckets never intersect, and adjacent
ranges abut exactly. -/
theorem C1_buckets_partition_without_zero :
    (∀ d : Nat, (1 ≤ d ∧ d < 2 ^ 160) ↔ ∃ b ∈ BucketList.init, InCoveredRange b d) ∧
    (∀ i j : Nat, ∀ hi : i < BucketList.init.length,
      ∀ hj : j < BucketList.init.length, i ≠ j → ∀ d : Nat,
        ¬ (InCoveredRange BucketList.init[i] d ∧
           InCoveredRange BucketList.init[j] d)) ∧
    (∀ i : Nat, ∀ hi : i < BucketList.init.length,
      ∀ hi1 : i + 1 < BucketList.init.length,
      (BucketList.init[i]).coveredDistanceTo
        = (BucketList.init[i + 1]).coveredDistanceFrom) := by
  refine ⟨?_, ?_, ?_⟩
  · intro d
    constructor
    · rintro ⟨hd1, hd2⟩
      have hd0 : d ≠ 0 := by omega
      refine ⟨BucketList.bucketAt (Nat.log 2 d),
        BucketList.mem_init.mpr ⟨Nat.log 2 d, ?_, rfl⟩,
        BucketList.inCoveredRange_bucketAt.mpr ⟨?_, ?_⟩⟩
      · exact Nat.log_lt_of_lt_pow hd0 hd2
      · exact Nat.pow_log_le_self 2 hd0
      · exact Nat.lt_pow_succ_log_self (by norm_num) d
    · rintro ⟨b, hb, hin⟩
      obtain ⟨i, hi, rfl⟩ := BucketList.mem_init.mp hb
      obtain ⟨h1, h2⟩ := BucketList.inCoveredRange_bucketAt.mp hin
      have hp : 0 < 2 ^ i := by positivity
      have hle : 2 ^ (i + 1) ≤ 2 ^ 160 :=
        Nat.pow_le_pow_right (by norm_num) (by omega)
      exact ⟨by omega, by omega⟩
  · intro i j hi hj hne d hd
    rw [BucketList.init_getElem i hi, BucketList.init_getElem j hj] at hd
    obtain ⟨hdi, hdj⟩ := hd
    obtain ⟨hi1, hi2⟩ := BucketList.inCoveredRange_bucketAt.mp hdi
    obtain ⟨hj1, hj2⟩ := BucketList.inCoveredRange_bucketAt.mp hdj
    rcases Nat.lt_or_ge i j with h | h
    · have hij : 2 ^ (i + 1) ≤ 2 ^ j := Nat.pow_le_pow_right (by norm_num) (by omega)
      omega
    · have hji : 2 ^ (j + 1) ≤ 2 ^ i := Nat.pow_le_pow_right (by norm_num) (by omega)
      omega
  · intro i hi hi1
    rw [BucketList.init_getElem i hi, BucketList.init_getElem (i + 1) hi1]
    rfl

/-- C1 (witness): the amended statement applied at distance 5 and at the
bucket pair (0, 1). -/
theorem C1_buckets_partition_without_zero_witness :
    (∃ b ∈ BucketList.init, InCoveredRange b 5) ∧
    ¬ (InCoveredRange (BucketList.init.get
          ⟨0, by rw [BucketList.init_length]; omega⟩) 5 ∧
       InCoveredRange (BucketList.init.get
          ⟨1, by rw [BucketList.init_length]; omega⟩) 5) := by
  have h := C1_buckets_partition_without_zero
  refine ⟨(h.1 5).mp (by norm_num), ?_⟩
  exact h.2.1 0 1 (by rw [BucketList.init_length]; omega)
    (by rw [BucketList.init_length]; omega) (by omega) 5
